import Mathlib

/-!
Verification of the timeline-based `PeriodicSignal`.

Shallow embedding of the canonical (timeline-based) `PeriodicSignal` class of
`periodic_signal.cpp`.  Time points and durations are modelled as exact
rationals (`ℚ`); the C++ `int` counter is modelled as `ℤ`; the monotonic clock
is made explicit by passing the sampled instant `now` as an argument to every
member function that calls `std::chrono::steady_clock::now()`.  Mutating member
functions take the pre-state and return the post-state (paired with the C++
return value where there is one).
-/

/-- The `DeltaMode` enum from `periodic_signal.cpp`: how the reported delta times are
computed (`perfect` reports the nominal period, `measured` the actual gap). -/
inductive DeltaMode where
  | perfect
  | measured
deriving DecidableEq, Repr

/-- The nested `TimeModel` enum from `periodic_signal.cpp`. -/
inductive TimeModel where
  | realtime
  | tick_latched
deriving DecidableEq, Repr

/-- Model of a C++ `static_cast<int>` applied to a nonnegative-or-negative real value:
truncation toward zero. -/
def cppTrunc (x : ℚ) : ℤ := if 0 ≤ x then ⌊x⌋ else ⌈x⌉

/-- Model of C `std::fmod x y = x - trunc (x/y) * y`; the result carries the sign of `x`. -/
def fmod (x y : ℚ) : ℚ := x - cppTrunc (x / y) * y

/-- Model of C++ `std::clamp v lo hi`: `lo` if `v < lo`, `hi` if `hi < v`, else `v`. -/
def cppClamp (v lo hi : ℚ) : ℚ := if v < lo then lo else if hi < v then hi else v

/-- State of the canonical `PeriodicSignal` (the class defined inline in
`periodic_signal.cpp`, lines 122-298).  The private member `time_model` of the
C++ class is omitted: the canonical constructor never initialises it (it is
absent from the constructor's initialiser list) and no member function reads
it, so it is not part of the observable state. -/
structure PeriodicSignal where
  delta_mode : DeltaMode
  period_duration : ℚ
  start_time : ℚ
  last_signal_time : ℚ
  signal_count : ℤ
  last_delta_time : ℚ
  cycle_progress_at_last_process_and_get_signal_call : ℚ
deriving DecidableEq, Repr

/-- The canonical constructor
`PeriodicSignal(int rate_limit_hz, DeltaMode delta_mode, TimeModel time_model)`.
`now` is the value of `std::chrono::steady_clock::now()` sampled in the
initialiser list.  The `time_model` argument is received but never stored,
exactly as in the source. -/
def PeriodicSignal.construct (rate_limit_hz : ℤ) (delta_mode : DeltaMode)
    (time_model : TimeModel) (now : ℚ) : PeriodicSignal :=
  { delta_mode := delta_mode
    period_duration := 1 / (rate_limit_hz : ℚ)
    start_time := now
    last_signal_time := now
    signal_count := 0
    last_delta_time := 0
    cycle_progress_at_last_process_and_get_signal_call := 0 }

/-- Member function `PeriodicSignal::get_cycle_progress_at(time_point)`. -/
def PeriodicSignal.get_cycle_progress_at (s : PeriodicSignal) (time_point : ℚ) : ℚ :=
  let elapsed_seconds := time_point - s.start_time
  let cycle_position := fmod elapsed_seconds s.period_duration
  cppClamp (cycle_position / s.period_duration) 0 1

/-- Member function `PeriodicSignal::process_and_get_signal()`.  Returns the C++ return value
paired with the post-state.  Note that the public member
`cycle_progress_at_last_process_and_get_signal_call` is written before the
branch, hence on every call. -/
def PeriodicSignal.process_and_get_signal (s : PeriodicSignal) (now : ℚ) :
    Bool × PeriodicSignal :=
  let elapsed_seconds := now - s.start_time
  let expected_signal_count := cppTrunc (elapsed_seconds / s.period_duration)
  let s1 := { s with cycle_progress_at_last_process_and_get_signal_call :=
                s.get_cycle_progress_at now }
  if expected_signal_count > s1.signal_count then
    (true, { s1 with signal_count := expected_signal_count
                     last_delta_time := now - s1.last_signal_time
                     last_signal_time := now })
  else
    (false, s1)

/-- Member function `PeriodicSignal::restart()`. -/
def PeriodicSignal.restart (s : PeriodicSignal) (now : ℚ) : PeriodicSignal :=
  { s with start_time := now
           signal_count := 0
           last_signal_time := now
           last_delta_time := 0 }

/-- Member function `PeriodicSignal::get_last_delta_time()`. -/
def PeriodicSignal.get_last_delta_time (s : PeriodicSignal) : ℚ :=
  if s.delta_mode = DeltaMode.perfect then s.period_duration else s.last_delta_time

/-- Member function `PeriodicSignal::enough_time_has_passed()`. -/
def PeriodicSignal.enough_time_has_passed (s : PeriodicSignal) (now : ℚ) : Bool :=
  decide (cppTrunc ((now - s.start_time) / s.period_duration) > s.signal_count)

/-- Member function `PeriodicSignal::get_cycle_progress()`. -/
def PeriodicSignal.get_cycle_progress (s : PeriodicSignal) (now : ℚ) : ℚ :=
  let elapsed_seconds := now - s.start_time
  let cycle_position := fmod elapsed_seconds s.period_duration
  cppClamp (cycle_position / s.period_duration) 0 1

/-- Member function `PeriodicSignal::get_cycle_progress_clamped()`. -/
def PeriodicSignal.get_cycle_progress_clamped (s : PeriodicSignal) (now : ℚ) : ℚ :=
  let elapsed_seconds := now - s.start_time
  let expected_signal_count := cppTrunc (elapsed_seconds / s.period_duration)
  if expected_signal_count > s.signal_count then
    1
  else
    cppClamp (fmod elapsed_seconds s.period_duration / s.period_duration) 0 1

/-- An operation issued by the embedding loop: one of the two mutating calls,
together with the clock instant at which it is made. -/
inductive Op where
  | poll (now : ℚ)
  | reset (now : ℚ)
deriving Repr

/-- Run a sequence of mutating operations, collecting the boolean returned by
each `process_and_get_signal` call. -/
def runOps : PeriodicSignal → List Op → PeriodicSignal × List Bool
  | s, [] => (s, [])
  | s, Op.poll t :: rest =>
    let r := s.process_and_get_signal t
    let tail := runOps r.2 rest
    (tail.1, r.1 :: tail.2)
  | s, Op.reset t :: rest => runOps (s.restart t) rest

theorem cppTrunc_eq_floor (x : ℚ) (h : 0 ≤ x) : cppTrunc x = ⌊x⌋ := by
  simp [cppTrunc, h]

theorem le_cppClamp (v lo hi : ℚ) (h : lo ≤ hi) : lo ≤ cppClamp v lo hi := by
  unfold cppClamp
  split_ifs with h1 h2 <;> linarith

theorem cppClamp_le (v lo hi : ℚ) (h : lo ≤ hi) : cppClamp v lo hi ≤ hi := by
  unfold cppClamp
  split_ifs with h1 h2 <;> linarith

theorem process_preserves_config (s : PeriodicSignal) (now : ℚ) :
    (s.process_and_get_signal now).2.delta_mode = s.delta_mode ∧
    (s.process_and_get_signal now).2.period_duration = s.period_duration ∧
    (s.process_and_get_signal now).2.start_time = s.start_time := by
  simp only [PeriodicSignal.process_and_get_signal]
  split <;> exact ⟨rfl, rfl, rfl⟩

/-- C1: whenever `K = ⌊(now - start_time)/period⌋` exceeds the stored tick
counter, a single `process_and_get_signal` call returns `true` and sets the
counter to exactly `K` (jumping, not incrementing by 1), and an immediately
subsequent call at the same instant returns `false`. -/
theorem catch_up_law (s : PeriodicSignal) (now : ℚ)
    (hper : 0 < s.period_duration) (hnow : s.start_time ≤ now)
    (hdue : ⌊(now - s.start_time) / s.period_duration⌋ > s.signal_count) :
    (s.process_and_get_signal now).1 = true ∧
    (s.process_and_get_signal now).2.signal_count
      = ⌊(now - s.start_time) / s.period_duration⌋ ∧
    ((s.process_and_get_signal now).2.process_and_get_signal now).1 = false := by
  have h0 : (0 : ℚ) ≤ (now - s.start_time) / s.period_duration :=
    div_nonneg (sub_nonneg.mpr hnow) hper.le
  have ht : cppTrunc ((now - s.start_time) / s.period_duration)
      = ⌊(now - s.start_time) / s.period_duration⌋ := cppTrunc_eq_floor _ h0
  unfold PeriodicSignal.process_and_get_signal
  simp only [ht]
  rw [if_pos hdue]
  refine ⟨rfl, rfl, ?_⟩
  simp only [ht]
  rw [if_neg (lt_irrefl _)]

/-- Witness for C1: a signal at 1 Hz constructed at time 0 and polled once at
t = 5/2 claims ticks 1 and 2 in one call (counter jumps to 2), and a second
poll at the same instant returns `false`. -/
theorem catch_up_law_witness :
    ((PeriodicSignal.construct 1 DeltaMode.measured TimeModel.realtime 0).process_and_get_signal
        (5/2)).1 = true ∧
    ((PeriodicSignal.construct 1 DeltaMode.measured TimeModel.realtime 0).process_and_get_signal
        (5/2)).2.signal_count = 2 ∧
    (((PeriodicSignal.construct 1 DeltaMode.measured TimeModel.realtime 0).process_and_get_signal
        (5/2)).2.process_and_get_signal (5/2)).1 = false := by
  have h := catch_up_law
    (PeriodicSignal.construct 1 DeltaMode.measured TimeModel.realtime 0) (5/2)
    (by norm_num [PeriodicSignal.construct])
    (by norm_num [PeriodicSignal.construct])
    (by norm_num [PeriodicSignal.construct])
  refine ⟨h.1, ?_, h.2.2⟩
  rw [h.2.1]
  norm_num [PeriodicSignal.construct]

/-- Counterexample to C2 as stated: a 1 Hz signal constructed at time 0 and
polled at t = 1/2 returns `false`, yet the public member
`cycle_progress_at_last_process_and_get_signal_call` changes from 0 to 1/2, so
the call does mutate state. -/
theorem poll_false_mutation :
    ((PeriodicSignal.construct 1 DeltaMode.measured TimeModel.realtime 0).process_and_get_signal
        (1/2)).1 = false ∧
    ((PeriodicSignal.construct 1 DeltaMode.measured TimeModel.realtime 0).process_and_get_signal
        (1/2)).2.cycle_progress_at_last_process_and_get_signal_call = 1/2 ∧
    (PeriodicSignal.construct 1 DeltaMode.measured
        TimeModel.realtime 0).cycle_progress_at_last_process_and_get_signal_call = 0 ∧
    ((PeriodicSignal.construct 1 DeltaMode.measured TimeModel.realtime 0).process_and_get_signal
        (1/2)).2 ≠ PeriodicSignal.construct 1 DeltaMode.measured TimeModel.realtime 0 := by
  refine ⟨?_, ?_, rfl, ?_⟩
  · norm_num [PeriodicSignal.construct, PeriodicSignal.process_and_get_signal, cppTrunc]
  · norm_num [PeriodicSignal.construct, PeriodicSignal.process_and_get_signal,
      PeriodicSignal.get_cycle_progress_at, cppTrunc, fmod, cppClamp]
  · intro hcontra
    have hfield := congrArg
      PeriodicSignal.cycle_progress_at_last_process_and_get_signal_call hcontra
    rw [show ((PeriodicSignal.construct 1 DeltaMode.measured
        TimeModel.realtime 0).process_and_get_signal
        (1/2)).2.cycle_progress_at_last_process_and_get_signal_call = 1/2 from by
      norm_num [PeriodicSignal.construct, PeriodicSignal.process_and_get_signal,
        PeriodicSignal.get_cycle_progress_at, cppTrunc, fmod, cppClamp]] at hfield
    norm_num [PeriodicSignal.construct] at hfield

/-- C2 amended: when no new tick is due, `process_and_get_signal` returns
`false` and leaves every field unchanged except the public member
`cycle_progress_at_last_process_and_get_signal_call`, which is overwritten on
every call (including `false`-returning ones) with the cycle progress at the
sampled instant. -/
theorem poll_false_frame (s : PeriodicSignal) (now : ℚ)
    (hper : 0 < s.period_duration) (hnow : s.start_time ≤ now)
    (hnot : ⌊(now - s.start_time) / s.period_duration⌋ ≤ s.signal_count) :
    (s.process_and_get_signal now).1 = false ∧
    (s.process_and_get_signal now).2.delta_mode = s.delta_mode ∧
    (s.process_and_get_signal now).2.period_duration = s.period_duration ∧
    (s.process_and_get_signal now).2.start_time = s.start_time ∧
    (s.process_and_get_signal now).2.last_signal_time = s.last_signal_time ∧
    (s.process_and_get_signal now).2.signal_count = s.signal_count ∧
    (s.process_and_get_signal now).2.last_delta_time = s.last_delta_time ∧
    (s.process_and_get_signal now).2.cycle_progress_at_last_process_and_get_signal_call
      = s.get_cycle_progress_at now := by
  have h0 : (0 : ℚ) ≤ (now - s.start_time) / s.period_duration :=
    div_nonneg (sub_nonneg.mpr hnow) hper.le
  have ht : cppTrunc ((now - s.start_time) / s.period_duration)
      = ⌊(now - s.start_time) / s.period_duration⌋ := cppTrunc_eq_floor _ h0
  unfold PeriodicSignal.process_and_get_signal
  simp only [ht]
  rw [if_neg (not_lt.mpr hnot)]
  exact ⟨rfl, rfl, rfl, rfl, rfl, rfl, rfl, rfl⟩

/-- Witness for the amended C2: the 1 Hz signal constructed at time 0 and
polled at t = 1/2 returns `false` with all private fields unchanged and the
public progress member set to the progress at t = 1/2. -/
theorem poll_false_frame_witness :
    ((PeriodicSignal.construct 1 DeltaMode.measured TimeModel.realtime 0).process_and_get_signal
        (1/2)).1 = false ∧
    ((PeriodicSignal.construct 1 DeltaMode.measured TimeModel.realtime 0).process_and_get_signal
        (1/2)).2.signal_count = 0 ∧
    ((PeriodicSignal.construct 1 DeltaMode.measured TimeModel.realtime 0).process_and_get_signal
        (1/2)).2.cycle_progress_at_last_process_and_get_signal_call
      = (PeriodicSignal.construct 1 DeltaMode.measured
          TimeModel.realtime 0).get_cycle_progress_at (1/2) := by
  have h := poll_false_frame
    (PeriodicSignal.construct 1 DeltaMode.measured TimeModel.realtime 0) (1/2)
    (by norm_num [PeriodicSignal.construct])
    (by norm_num [PeriodicSignal.construct])
    (by norm_num [PeriodicSignal.construct])
  refine ⟨h.1, ?_, h.2.2.2.2.2.2.2⟩
  rw [h.2.2.2.2.2.1]
  norm_num [PeriodicSignal.construct]

/-- C3: in perfect delta mode, after any `process_and_get_signal` call that
returned `true`, `get_last_delta_time` returns exactly the nominal period
`1/rate_hz`, regardless of the actual wall-clock gap. -/
theorem perfect_delta_reports_period (s : PeriodicSignal) (now : ℚ) (rate : ℤ)
    (hmode : s.delta_mode = DeltaMode.perfect)
    (hper : s.period_duration = 1 / (rate : ℚ))
    (hres : (s.process_and_get_signal now).1 = true) :
    (s.process_and_get_signal now).2.get_last_delta_time = 1 / (rate : ℚ) := by
  have h := process_preserves_config s now
  unfold PeriodicSignal.get_last_delta_time
  rw [h.1, hmode, if_pos rfl, h.2.1, hper]

/-- Witness for C3: a 2 Hz perfect-mode signal constructed at time 0 and
polled at t = 3/4 (half a period late) claims a tick yet reports a delta of
exactly 1/2, the nominal period. -/
theorem perfect_delta_reports_period_witness :
    ((PeriodicSignal.construct 2 DeltaMode.perfect TimeModel.realtime 0).process_and_get_signal
        (3/4)).1 = true ∧
    ((PeriodicSignal.construct 2 DeltaMode.perfect TimeModel.realtime 0).process_and_get_signal
        (3/4)).2.get_last_delta_time = 1 / ((2 : ℤ) : ℚ) := by
  have hres : ((PeriodicSignal.construct 2 DeltaMode.perfect
      TimeModel.realtime 0).process_and_get_signal (3/4)).1 = true := by
    norm_num [PeriodicSignal.construct, PeriodicSignal.process_and_get_signal, cppTrunc]
  exact ⟨hres, perfect_delta_reports_period
    (PeriodicSignal.construct 2 DeltaMode.perfect TimeModel.realtime 0) (3/4) 2
    rfl rfl hres⟩

/-- Counterexample to C4 as stated: on a freshly constructed 1 Hz signal in
perfect mode, `get_last_delta_time` returns the period 1, not the stored
initial value `last_delta_time = 0`. -/
theorem fresh_perfect_delta_not_zero :
    (PeriodicSignal.construct 1 DeltaMode.perfect
        TimeModel.realtime 0).get_last_delta_time = 1 ∧
    (PeriodicSignal.construct 1 DeltaMode.perfect
        TimeModel.realtime 0).last_delta_time = 0 ∧
    (1 : ℚ) ≠ 0 := by
  refine ⟨?_, rfl, one_ne_zero⟩
  norm_num [PeriodicSignal.construct, PeriodicSignal.get_last_delta_time]

/-- C4 amended: construction initialises `last_delta_time` to 0 and, in
measured mode, `get_last_delta_time` on a fresh instance returns that stored 0
without sampling the clock; in perfect mode the getter ignores the stored
value and returns the nominal period `1/rate` even before any tick. -/
theorem fresh_delta_values (rate : ℤ) (dm : DeltaMode) (tm : TimeModel) (t0 : ℚ) :
    (PeriodicSignal.construct rate dm tm t0).last_delta_time = 0 ∧
    (PeriodicSignal.construct rate DeltaMode.measured tm t0).get_last_delta_time = 0 ∧
    (PeriodicSignal.construct rate DeltaMode.perfect tm t0).get_last_delta_time
      = 1 / (rate : ℚ) :=
  ⟨rfl, rfl, rfl⟩

/-- C5: in measured delta mode, after a `process_and_get_signal` call that
returned `true` at instant `now`, `get_last_delta_time` returns exactly
`now - last_signal_time`, the gap to the previously claimed tick; on a fresh
instance `last_signal_time` equals `start_time`. -/
theorem measured_delta_is_gap (s : PeriodicSignal) (now : ℚ)
    (hmode : s.delta_mode = DeltaMode.measured)
    (hres : (s.process_and_get_signal now).1 = true) :
    (s.process_and_get_signal now).2.get_last_delta_time = now - s.last_signal_time ∧
    ∀ (rate : ℤ) (dm : DeltaMode) (tm : TimeModel) (t0 : ℚ),
      (PeriodicSignal.construct rate dm tm t0).last_signal_time
        = (PeriodicSignal.construct rate dm tm t0).start_time := by
  refine ⟨?_, fun _ _ _ _ => rfl⟩
  have hd := (process_preserves_config s now).1
  unfold PeriodicSignal.get_last_delta_time
  rw [hd, hmode, if_neg (by simp)]
  simp only [PeriodicSignal.process_and_get_signal] at hres ⊢
  split at hres
  · rename_i h
    rw [if_pos h]
  · simp at hres

/-- Witness for C5: a 1 Hz measured-mode signal constructed at time 0 and first
polled at t = 5/2 claims a tick and reports a measured delta of 5/2, the full
gap back to `start_time`, exceeding the nominal period 1. -/
theorem measured_delta_is_gap_witness :
    ((PeriodicSignal.construct 1 DeltaMode.measured TimeModel.realtime 0).process_and_get_signal
        (5/2)).1 = true ∧
    ((PeriodicSignal.construct 1 DeltaMode.measured TimeModel.realtime 0).process_and_get_signal
        (5/2)).2.get_last_delta_time = 5/2 := by
  have hres : ((PeriodicSignal.construct 1 DeltaMode.measured
      TimeModel.realtime 0).process_and_get_signal (5/2)).1 = true := by
    norm_num [PeriodicSignal.construct, PeriodicSignal.process_and_get_signal, cppTrunc]
  have h := measured_delta_is_gap
    (PeriodicSignal.construct 1 DeltaMode.measured TimeModel.realtime 0) (5/2) rfl hres
  refine ⟨hres, ?_⟩
  rw [h.1]
  norm_num [PeriodicSignal.construct]

/-- C6: `get_cycle_progress` computes `fmod elapsed period / period` clamped to
`[0,1]`, its result always lies in `[0,1]`, and it is independent of the
stored tick counter `signal_count`. -/
theorem cycle_progress_spec (s : PeriodicSignal) (now : ℚ) :
    s.get_cycle_progress now
      = cppClamp (fmod (now - s.start_time) s.period_duration / s.period_duration) 0 1 ∧
    0 ≤ s.get_cycle_progress now ∧
    s.get_cycle_progress now ≤ 1 ∧
    ∀ k : ℤ, PeriodicSignal.get_cycle_progress { s with signal_count := k } now
        = s.get_cycle_progress now :=
  ⟨rfl, le_cppClamp _ 0 1 zero_le_one, cppClamp_le _ 0 1 zero_le_one, fun _ => rfl⟩

/-- C7: when a tick is overdue but unclaimed
(`⌊(now - start_time)/period⌋ > signal_count`), `get_cycle_progress_clamped`
returns exactly 1; otherwise it returns exactly what `get_cycle_progress`
returns. -/
theorem cycle_progress_clamped_spec (s : PeriodicSignal) (now : ℚ)
    (hper : 0 < s.period_duration) (hnow : s.start_time ≤ now) :
    (⌊(now - s.start_time) / s.period_duration⌋ > s.signal_count →
      s.get_cycle_progress_clamped now = 1) ∧
    (⌊(now - s.start_time) / s.period_duration⌋ ≤ s.signal_count →
      s.get_cycle_progress_clamped now = s.get_cycle_progress now) := by
  have h0 : (0 : ℚ) ≤ (now - s.start_time) / s.period_duration :=
    div_nonneg (sub_nonneg.mpr hnow) hper.le
  have ht : cppTrunc ((now - s.start_time) / s.period_duration)
      = ⌊(now - s.start_time) / s.period_duration⌋ := cppTrunc_eq_floor _ h0
  unfold PeriodicSignal.get_cycle_progress_clamped
  simp only [ht]
  constructor
  · intro hdue
    rw [if_pos hdue]
  · intro hnot
    rw [if_neg (not_lt.mpr hnot)]
    rfl

/-- Witness for C7: a 1 Hz signal constructed at time 0 is overdue at
t = 3/2, where the clamped progress reads exactly 1 while the raw progress
reads 1/2; at t = 1/2 nothing is overdue and both getters agree. -/
theorem cycle_progress_clamped_spec_witness :
    (PeriodicSignal.construct 1 DeltaMode.measured
        TimeModel.realtime 0).get_cycle_progress_clamped (3/2) = 1 ∧
    (PeriodicSignal.construct 1 DeltaMode.measured
        TimeModel.realtime 0).get_cycle_progress_clamped (1/2)
      = (PeriodicSignal.construct 1 DeltaMode.measured
          TimeModel.realtime 0).get_cycle_progress (1/2) := by
  constructor
  · exact (cycle_progress_clamped_spec
      (PeriodicSignal.construct 1 DeltaMode.measured TimeModel.realtime 0) (3/2)
      (by norm_num [PeriodicSignal.construct])
      (by norm_num [PeriodicSignal.construct])).1
      (by norm_num [PeriodicSignal.construct])
  · exact (cycle_progress_clamped_spec
      (PeriodicSignal.construct 1 DeltaMode.measured TimeModel.realtime 0) (1/2)
      (by norm_num [PeriodicSignal.construct])
      (by norm_num [PeriodicSignal.construct])).2
      (by norm_num [PeriodicSignal.construct])

/-- C8: `restart` at instant `now0` resets `start_time`, `signal_count`,
`last_signal_time` and `last_delta_time` to their initial values, leaves the
period and the delta mode unchanged, and the very next
`process_and_get_signal` call (at any instant `now1`) returns the same value
and the same resulting state as that of a freshly constructed instance. -/
theorem restart_fresh_equiv (s : PeriodicSignal) (rate : ℤ) (dm : DeltaMode)
    (tm : TimeModel) (now0 now1 : ℚ)
    (h1 : s.period_duration = 1 / (rate : ℚ)) (h2 : s.delta_mode = dm) :
    (s.restart now0).start_time = now0 ∧
    (s.restart now0).signal_count = 0 ∧
    (s.restart now0).last_signal_time = now0 ∧
    (s.restart now0).last_delta_time = 0 ∧
    (s.restart now0).period_duration = s.period_duration ∧
    (s.restart now0).delta_mode = s.delta_mode ∧
    (s.restart now0).process_and_get_signal now1
      = (PeriodicSignal.construct rate dm tm now0).process_and_get_signal now1 := by
  refine ⟨rfl, rfl, rfl, rfl, rfl, rfl, ?_⟩
  simp only [PeriodicSignal.process_and_get_signal, PeriodicSignal.restart,
    PeriodicSignal.construct, PeriodicSignal.get_cycle_progress_at, h1, h2]

/-- Witness for C8: an instance constructed at time 5 and restarted at time 10
yields, on a poll at t = 23/2, the same result and state as an instance
freshly constructed at time 10 and polled at t = 23/2. -/
theorem restart_fresh_equiv_witness :
    ((PeriodicSignal.construct 1 DeltaMode.measured
        TimeModel.realtime 5).restart 10).process_and_get_signal (23/2)
      = (PeriodicSignal.construct 1 DeltaMode.measured
          TimeModel.realtime 10).process_and_get_signal (23/2) :=
  (restart_fresh_equiv
    (PeriodicSignal.construct 1 DeltaMode.measured TimeModel.realtime 5)
    1 DeltaMode.measured TimeModel.realtime 10 (23/2) rfl rfl).2.2.2.2.2.2

/-- C9: the `time_model` constructor argument is behaviourally inert: the
canonical constructor never stores it and no member function reads it, so two
runs of any operation sequence that differ only in the `time_model` argument
(`realtime` versus `tick_latched`) start from equal states and produce
identical return values and identical state evolution. -/
theorem time_model_is_no_op (rate : ℤ) (dm : DeltaMode) (t0 : ℚ) (ops : List Op) :
    PeriodicSignal.construct rate dm TimeModel.realtime t0
      = PeriodicSignal.construct rate dm TimeModel.tick_latched t0 ∧
    runOps (PeriodicSignal.construct rate dm TimeModel.realtime t0) ops
      = runOps (PeriodicSignal.construct rate dm TimeModel.tick_latched t0) ops :=
  ⟨rfl, rfl⟩

/-- C10: `restart` leaves the public member
`cycle_progress_at_last_process_and_get_signal_call` untouched: after a
restart it still holds whatever the last pre-restart `process_and_get_signal`
call recorded (the cycle progress at that call's instant; 0 on a fresh
instance), so a caller reading it between `restart` and the next poll sees
stale pre-restart data. -/
theorem restart_keeps_progress_field (s : PeriodicSignal) (t1 t2 : ℚ)
    (rate : ℤ) (dm : DeltaMode) (tm : TimeModel) (t0 : ℚ) :
    (s.restart t2).cycle_progress_at_last_process_and_get_signal_call
      = s.cycle_progress_at_last_process_and_get_signal_call ∧
    (PeriodicSignal.construct rate dm tm
        t0).cycle_progress_at_last_process_and_get_signal_call = 0 ∧
    (((s.process_and_get_signal t1).2.restart
        t2).cycle_progress_at_last_process_and_get_signal_call
      = (s.process_and_get_signal
          t1).2.cycle_progress_at_last_process_and_get_signal_call) ∧
    (s.process_and_get_signal t1).2.cycle_progress_at_last_process_and_get_signal_call
      = s.get_cycle_progress_at t1 := by
  refine ⟨rfl, rfl, rfl, ?_⟩
  simp only [PeriodicSignal.process_and_get_signal]
  split <;> rfl
